import Mathlib

/-!
Shallow embedding of `src/StepperMotortutorial/AzureMotorTest/main.c`
(AzureSphereTutes): a stepper-motor driver gated by a push button, with
two periodic timer handlers, a termination latch, and init/cleanup code.

GPIO values follow the C enum `GPIO_Value_Type`: `low` is the asserted /
"active" electrical level for the driver inputs (it energizes a coil) and
for the green LED (it lights the LED); `high` is the deasserted /
"inactive" level.
-/

/-- The two-valued GPIO level of `applibs/gpio.h` (`GPIO_Value_Low` /
`GPIO_Value_High`). -/
inductive GPIO_Value_Type
  | low
  | high
deriving DecidableEq, Repr

/-- The output lines the program writes: the four driver inputs
`IN1..IN4` (main.c lines 37-40) and the green indicator LED
(`greenLEDFd`, line 26). -/
inductive Line
  | in1
  | in2
  | in3
  | in4
  | greenLED
deriving DecidableEq, Repr

/-- The mutable globals of main.c that the handlers read and write:
`isMotorTurning` (line 34), `stepNumber` (line 35, a C `int`, modeled as
`Int`), and `terminationRequired` (line 31). -/
structure MotorState where
  isMotorTurning : Bool
  stepNumber : Int
  terminationRequired : Bool
deriving DecidableEq, Repr

/-- The state at program start (main.c lines 31-35). -/
def initialState : MotorState :=
  { isMotorTurning := false, stepNumber := 0, terminationRequired := false }

/-- `TerminationHandler` (main.c lines 45-49): the SIGTERM handler sets
`terminationRequired`. -/
def TerminationHandler (s : MotorState) : MotorState :=
  { s with terminationRequired := true }

/-- `ButtonTimerEventHandler` (main.c lines 54-83).  Inputs model the two
fallible external calls: `consumeResult` is the return of
`ConsumeTimerFdEvent(buttonPollTimerFd)`, `readResult` the return of
`GPIO_GetValue(button_A_GpioFd, &newButtonState)` and `newButtonState`
the sampled level (meaningful only when `readResult = 0`).  Returns the
new global state together with the list of GPIO writes performed, in
order. -/
def ButtonTimerEventHandler (consumeResult readResult : Int)
    (newButtonState : GPIO_Value_Type) (s : MotorState) :
    MotorState × List (Line × GPIO_Value_Type) :=
  if consumeResult ≠ 0 then
    ({ s with terminationRequired := true }, [])
  else if readResult ≠ 0 then
    ({ s with terminationRequired := true }, [])
  else if newButtonState = GPIO_Value_Type.high then
    ({ s with isMotorTurning := false, stepNumber := 0 },
     [(Line.greenLED, GPIO_Value_Type.high)])
  else
    ({ s with isMotorTurning := true },
     [(Line.greenLED, GPIO_Value_Type.low)])

/-- `StepperMotorEventHandler` (main.c lines 92-147).  `consumeResult` is
the return of `ConsumeTimerFdEvent(stepperMotorTimerFd)`.  The `switch`
on `stepNumber` writes one excitation pattern (cases 0-3; the `default`
case writes nothing), after which `stepNumber` is incremented and wrapped
at 4; when `isMotorTurning` is false all four driver lines are driven
high. -/
def StepperMotorEventHandler (consumeResult : Int) (s : MotorState) :
    MotorState × List (Line × GPIO_Value_Type) :=
  if consumeResult ≠ 0 then
    ({ s with terminationRequired := true }, [])
  else if s.isMotorTurning then
    let writes :=
      if s.stepNumber = 0 then
        [(Line.in1, GPIO_Value_Type.low), (Line.in2, GPIO_Value_Type.high),
         (Line.in3, GPIO_Value_Type.high), (Line.in4, GPIO_Value_Type.high)]
      else if s.stepNumber = 1 then
        [(Line.in1, GPIO_Value_Type.high), (Line.in2, GPIO_Value_Type.low),
         (Line.in3, GPIO_Value_Type.high), (Line.in4, GPIO_Value_Type.high)]
      else if s.stepNumber = 2 then
        [(Line.in1, GPIO_Value_Type.high), (Line.in2, GPIO_Value_Type.high),
         (Line.in3, GPIO_Value_Type.low), (Line.in4, GPIO_Value_Type.high)]
      else if s.stepNumber = 3 then
        [(Line.in1, GPIO_Value_Type.high), (Line.in2, GPIO_Value_Type.high),
         (Line.in3, GPIO_Value_Type.high), (Line.in4, GPIO_Value_Type.low)]
      else []
    let next := s.stepNumber + 1
    ({ s with stepNumber := if next = 4 then 0 else next }, writes)
  else
    (s,
     [(Line.in1, GPIO_Value_Type.high), (Line.in2, GPIO_Value_Type.high),
      (Line.in3, GPIO_Value_Type.high), (Line.in4, GPIO_Value_Type.high)])

/-- Iterate the Step Sequencer for `n` consecutive ticks, each with a
successful timer consumption (`consumeResult = 0`). -/
def iterStepper : Nat → MotorState → MotorState
  | 0, s => s
  | n + 1, s => iterStepper n (StepperMotorEventHandler 0 s).1

/-- The four motor driver lines, in order `IN1..IN4`. -/
def driveLines : List Line := [Line.in1, Line.in2, Line.in3, Line.in4]

/-- The (first) value written to line `l` in a write list, if any. -/
def writeOf (ws : List (Line × GPIO_Value_Type)) (l : Line) :
    Option GPIO_Value_Type :=
  (ws.find? fun p => p.1 == l).map Prod.snd

/-- Number of writes in the list that drive a line to the active (low)
level. -/
def activeCount (ws : List (Line × GPIO_Value_Type)) : Nat :=
  (ws.filter fun p => p.2 == GPIO_Value_Type.low).length

/-- The line that the spec table (§4.2) calls active for step `k`:
`IN(k+1)`. -/
def stepLine (k : Int) : Line :=
  if k = 0 then Line.in1
  else if k = 1 then Line.in2
  else if k = 2 then Line.in3
  else Line.in4

/-- What one `WaitForEventAndCallHandler` call in the run loop can do:
fail (nonzero return), dispatch the button handler, or dispatch the
stepper handler, each with the results of its external calls. -/
inductive DispatchOutcome
  | waitFailed
  | buttonTick (consumeResult readResult : Int) (level : GPIO_Value_Type)
  | stepperTick (consumeResult : Int)
deriving DecidableEq, Repr

/-- One iteration of the run loop body as observed from outside:
optionally a SIGTERM arrives while the loop is blocked in the wait call
(running `TerminationHandler` asynchronously), then the wait returns
with the given outcome. -/
structure LoopEvent where
  sigtermDuringWait : Bool
  outcome : DispatchOutcome
deriving DecidableEq, Repr

/-- The body of one run-loop iteration (main.c lines 270-274): a possible
asynchronous SIGTERM during the blocking wait, then either the wait call
fails (main.c line 271-273 sets `terminationRequired`) or the readiness
event dispatches exactly one of the two handlers. -/
def loopIter (e : LoopEvent) (s : MotorState) : MotorState :=
  let s0 := if e.sigtermDuringWait then TerminationHandler s else s
  match e.outcome with
  | DispatchOutcome.waitFailed => { s0 with terminationRequired := true }
  | DispatchOutcome.buttonTick c r v => (ButtonTimerEventHandler c r v s0).1
  | DispatchOutcome.stepperTick c => (StepperMotorEventHandler c s0).1

/-- The run loop `while (!terminationRequired) { WaitForEventAndCallHandler }`
(main.c lines 270-274) over a finite trace of iteration events.  Returns
the final state and how many wait-and-dispatch iterations were executed;
the latch is checked before every blocking wait. -/
def runLoop : List LoopEvent → MotorState → MotorState × Nat
  | [], s => (s, 0)
  | e :: es, s =>
    if s.terminationRequired then (s, 0)
    else
      let r := runLoop es (loopIter e s)
      (r.1, r.2 + 1)

/-- The file descriptors the program acquires and closes. -/
inductive Fd
  | epoll
  | buttonGpio
  | buttonTimer
  | greenLED
  | in4
  | in3
  | in2
  | in1
  | stepperTimer
deriving DecidableEq, Repr

/-- The order in which `InitPeripheralsAndHandlers` (main.c lines 159-240)
acquires its file descriptors: epoll fd, button GPIO, button poll timer,
green LED, IN4, IN3, IN2, IN1, stepper motor timer. -/
def acquireOrder : List Fd :=
  [Fd.epoll, Fd.buttonGpio, Fd.buttonTimer, Fd.greenLED,
   Fd.in4, Fd.in3, Fd.in2, Fd.in1, Fd.stepperTimer]

/-- `InitPeripheralsAndHandlers` (main.c lines 159-240), parameterized by
the fd returned for each acquisition (negative means that open call
failed).  Returns `(result, opened)`: `result` is the C return value (0
on success, -1 on the first failure) and `opened` the list of fds
acquired before the failure, in acquisition order. -/
def InitPeripheralsAndHandlers (fdOf : Fd → Int) : Int × List Fd :=
  if fdOf Fd.epoll < 0 then (-1, [])
  else if fdOf Fd.buttonGpio < 0 then (-1, [Fd.epoll])
  else if fdOf Fd.buttonTimer < 0 then (-1, [Fd.epoll, Fd.buttonGpio])
  else if fdOf Fd.greenLED < 0 then
    (-1, [Fd.epoll, Fd.buttonGpio, Fd.buttonTimer])
  else if fdOf Fd.in4 < 0 then
    (-1, [Fd.epoll, Fd.buttonGpio, Fd.buttonTimer, Fd.greenLED])
  else if fdOf Fd.in3 < 0 then
    (-1, [Fd.epoll, Fd.buttonGpio, Fd.buttonTimer, Fd.greenLED, Fd.in4])
  else if fdOf Fd.in2 < 0 then
    (-1, [Fd.epoll, Fd.buttonGpio, Fd.buttonTimer, Fd.greenLED, Fd.in4, Fd.in3])
  else if fdOf Fd.in1 < 0 then
    (-1, [Fd.epoll, Fd.buttonGpio, Fd.buttonTimer, Fd.greenLED, Fd.in4, Fd.in3,
          Fd.in2])
  else if fdOf Fd.stepperTimer < 0 then
    (-1, [Fd.epoll, Fd.buttonGpio, Fd.buttonTimer, Fd.greenLED, Fd.in4, Fd.in3,
          Fd.in2, Fd.in1])
  else (0, acquireOrder)

/-- `ClosePeripheralsAndHandlers` (main.c lines 245-260), parameterized by
the result each underlying `close` would give.  `CloseFdAndPrintError`
(from epoll_timerfd_utilities) returns void and only logs a failure, so
the nine calls are unconditional and sequential: the function returns
the list of fds on which a close is attempted, in program order, which
does not depend on any close failing. -/
def ClosePeripheralsAndHandlers (_closeResults : Fd → Int) : List Fd :=
  [Fd.epoll, Fd.buttonTimer, Fd.greenLED,
   Fd.buttonGpio, Fd.stepperTimer,
   Fd.in1, Fd.in2, Fd.in3, Fd.in4]

/-- What a run of `main` (main.c lines 262-279) produces. -/
structure MainResult where
  finalState : MotorState
  loopIterations : Nat
  closed : List Fd
  exitStatus : Int
deriving DecidableEq, Repr

/-- The state after the `if (InitPeripheralsAndHandlers() != 0)
terminationRequired = true;` step of `main` (main.c lines 265-267). -/
def mainInitialState (fdOf : Fd → Int) : MotorState :=
  if (InitPeripheralsAndHandlers fdOf).1 ≠ 0 then
    { initialState with terminationRequired := true }
  else initialState

/-- The C `main` function (main.c lines 262-279): set
`terminationRequired` when `InitPeripheralsAndHandlers` returns nonzero,
run the loop over the given event trace, then close peripherals and
`return 0`. -/
def mainProgram (fdOf : Fd → Int) (closeResults : Fd → Int)
    (events : List LoopEvent) : MainResult :=
  { finalState := (runLoop events (mainInitialState fdOf)).1
    loopIterations := (runLoop events (mainInitialState fdOf)).2
    closed := ClosePeripheralsAndHandlers closeResults
    exitStatus := 0 }
-- helper lemmas
theorem stepper_tick_state (n : Int) (b : Bool) (h0 : 0 ≤ n) (h1 : n < 4) :
    (StepperMotorEventHandler 0 ⟨true, n, b⟩).1 = ⟨true, (n + 1) % 4, b⟩ := by
  interval_cases n <;> simp [StepperMotorEventHandler]

theorem iterStepper_state (N : Nat) :
    ∀ (n : Int) (b : Bool), 0 ≤ n → n < 4 →
      iterStepper N ⟨true, n, b⟩ = ⟨true, (n + N) % 4, b⟩ := by
  induction N with
  | zero =>
      intro n b h0 h1
      simp only [iterStepper, Nat.cast_zero, add_zero, MotorState.mk.injEq,
        true_and, and_true]
      omega
  | succ N ih =>
      intro n b h0 h1
      rw [iterStepper, stepper_tick_state n b h0 h1,
        ih ((n + 1) % 4) b (by omega) (by omega)]
      simp only [MotorState.mk.injEq, true_and, and_true]
      push_cast
      omega

theorem stepper_tick_active (n : Int) (b : Bool) (h0 : 0 ≤ n) (h1 : n < 4) :
    activeCount (StepperMotorEventHandler 0 ⟨true, n, b⟩).2 = 1 := by
  interval_cases n <;> rfl

theorem stepper_tick_writes (n : Int) (b : Bool) (h0 : 0 ≤ n) (h1 : n < 4) :
    ∀ l ∈ driveLines,
      writeOf (StepperMotorEventHandler 0 ⟨true, n, b⟩).2 l =
        some (if l = stepLine n then GPIO_Value_Type.low
              else GPIO_Value_Type.high) := by
  interval_cases n <;> intro l hl <;>
    simp only [driveLines, List.mem_cons, List.not_mem_nil, or_false] at hl <;>
    rcases hl with rfl | rfl | rfl | rfl <;> rfl

/-- C1: when the Step Sequencer runs with `turning = true` and
`stepIndex = s ∈ [0,3]` (timer consumption succeeding), it drives exactly
line `IN(s+1)` low (active) and the other three driver lines high
(inactive), and afterwards `stepIndex = (s + 1) % 4`; over `N` consecutive
such ticks `stepIndex` follows `(stepIndex0 + N) % 4` and each tick has
exactly one active line. -/
theorem stepper_turning_tick_and_trace (s : MotorState) (N : Nat)
    (hturn : s.isMotorTurning = true)
    (h0 : 0 ≤ s.stepNumber) (h1 : s.stepNumber < 4) :
    (∀ l ∈ driveLines,
        writeOf (StepperMotorEventHandler 0 s).2 l =
          some (if l = stepLine s.stepNumber then GPIO_Value_Type.low
                else GPIO_Value_Type.high)) ∧
    (StepperMotorEventHandler 0 s).1.stepNumber = (s.stepNumber + 1) % 4 ∧
    (iterStepper N s).stepNumber = (s.stepNumber + N) % 4 ∧
    activeCount (StepperMotorEventHandler 0 (iterStepper N s)).2 = 1 := by
  obtain ⟨t, n, b⟩ := s
  simp only at hturn h0 h1
  subst hturn
  refine ⟨stepper_tick_writes n b h0 h1, ?_, ?_, ?_⟩
  · rw [stepper_tick_state n b h0 h1]
  · rw [iterStepper_state N n b h0 h1]
  · rw [iterStepper_state N n b h0 h1]
    exact stepper_tick_active _ b (by omega) (by omega)

/-- C1 witness: the theorem instantiated at `turning = true`,
`stepIndex = 2`, over 7 ticks. -/
theorem stepper_turning_tick_and_trace_witness :
    (iterStepper 7 ⟨true, 2, false⟩).stepNumber = ((2 : Int) + (7 : Nat)) % 4 ∧
    activeCount (StepperMotorEventHandler 0 (iterStepper 7 ⟨true, 2, false⟩)).2 = 1 :=
  ⟨(stepper_turning_tick_and_trace ⟨true, 2, false⟩ 7 rfl (by decide) (by decide)).2.2.1,
   (stepper_turning_tick_and_trace ⟨true, 2, false⟩ 7 rfl (by decide) (by decide)).2.2.2⟩

/-- C2: when the Step Sequencer runs with `turning = false` and a
successful timer consumption, all four driver lines are driven high
(inactive) and the state — in particular `stepIndex` — is unchanged. -/
theorem stepper_not_turning_deenergizes (c : Int) (s : MotorState)
    (hc : c = 0) (hturn : s.isMotorTurning = false) :
    (StepperMotorEventHandler c s).1 = s ∧
    (StepperMotorEventHandler c s).2 =
      [(Line.in1, GPIO_Value_Type.high), (Line.in2, GPIO_Value_Type.high),
       (Line.in3, GPIO_Value_Type.high), (Line.in4, GPIO_Value_Type.high)] := by
  subst hc
  simp [StepperMotorEventHandler, hturn]

/-- C2 witness: the theorem instantiated at `turning = false`,
`stepIndex = 3`. -/
theorem stepper_not_turning_deenergizes_witness :
    (StepperMotorEventHandler 0 ⟨false, 3, false⟩).1 = ⟨false, 3, false⟩ ∧
    (StepperMotorEventHandler 0 ⟨false, 3, false⟩).2 =
      [(Line.in1, GPIO_Value_Type.high), (Line.in2, GPIO_Value_Type.high),
       (Line.in3, GPIO_Value_Type.high), (Line.in4, GPIO_Value_Type.high)] :=
  stepper_not_turning_deenergizes 0 ⟨false, 3, false⟩ rfl rfl

/-- C3: starting from the initial state (`stepNumber = 0`), the predicate
`stepIndex ∈ [0,3]` is preserved by every Button Monitor and Step
Sequencer invocation, and no operation executed while `turning = false`
advances `stepIndex`: the Step Sequencer leaves it unchanged and the
Button Monitor only ever leaves it unchanged or resets it to 0. -/
theorem step_index_invariant :
    (0 ≤ initialState.stepNumber ∧ initialState.stepNumber ≤ 3) ∧
    (∀ (c r : Int) (v : GPIO_Value_Type) (s : MotorState),
        0 ≤ s.stepNumber → s.stepNumber ≤ 3 →
        0 ≤ (ButtonTimerEventHandler c r v s).1.stepNumber ∧
          (ButtonTimerEventHandler c r v s).1.stepNumber ≤ 3) ∧
    (∀ (c : Int) (s : MotorState),
        0 ≤ s.stepNumber → s.stepNumber ≤ 3 →
        0 ≤ (StepperMotorEventHandler c s).1.stepNumber ∧
          (StepperMotorEventHandler c s).1.stepNumber ≤ 3) ∧
    (∀ (c : Int) (s : MotorState), s.isMotorTurning = false →
        (StepperMotorEventHandler c s).1.stepNumber = s.stepNumber) ∧
    (∀ (c r : Int) (v : GPIO_Value_Type) (s : MotorState),
        (ButtonTimerEventHandler c r v s).1.stepNumber = s.stepNumber ∨
          (ButtonTimerEventHandler c r v s).1.stepNumber = 0) := by
  refine ⟨by simp [initialState], ?_, ?_, ?_, ?_⟩
  · intro c r v s h0 h1
    simp only [ButtonTimerEventHandler]
    split_ifs <;> simp <;> omega
  · intro c s h0 h1
    simp only [StepperMotorEventHandler]
    split_ifs <;> simp <;> omega
  · intro c s hturn
    simp [StepperMotorEventHandler, hturn]
    split_ifs <;> simp
  · intro c r v s
    simp only [ButtonTimerEventHandler]
    split_ifs <;> simp

/-- C3 witness: the Button Monitor bound-preservation conjunct at a
concrete state with `stepIndex = 2`. -/
theorem step_index_invariant_witness :
    0 ≤ (ButtonTimerEventHandler 0 0 GPIO_Value_Type.high ⟨true, 2, false⟩).1.stepNumber ∧
      (ButtonTimerEventHandler 0 0 GPIO_Value_Type.high ⟨true, 2, false⟩).1.stepNumber ≤ 3 :=
  step_index_invariant.2.1 0 0 GPIO_Value_Type.high ⟨true, 2, false⟩
    (by decide) (by decide)

/-- C4: on a successful button read, a released (high) sample forces
`turning = false`, `stepIndex = 0` (whatever its prior value) and one
write of the LED line to high (off); a pressed (low) sample forces
`turning = true`, leaves `stepIndex` unchanged and writes the LED line
low (on). -/
theorem button_success_behavior (c r : Int) (v : GPIO_Value_Type)
    (s : MotorState) (hc : c = 0) (hr : r = 0) :
    (v = GPIO_Value_Type.high →
        ButtonTimerEventHandler c r v s =
          ({ s with isMotorTurning := false, stepNumber := 0 },
           [(Line.greenLED, GPIO_Value_Type.high)])) ∧
    (v = GPIO_Value_Type.low →
        ButtonTimerEventHandler c r v s =
          ({ s with isMotorTurning := true },
           [(Line.greenLED, GPIO_Value_Type.low)])) := by
  subst hc
  subst hr
  constructor <;> intro hv <;> subst hv <;> simp [ButtonTimerEventHandler]

/-- C4 witness: the released case at a state with `stepIndex = 2`. -/
theorem button_success_behavior_witness :
    ButtonTimerEventHandler 0 0 GPIO_Value_Type.high ⟨true, 2, false⟩ =
      (⟨false, 0, false⟩, [(Line.greenLED, GPIO_Value_Type.high)]) :=
  (button_success_behavior 0 0 GPIO_Value_Type.high ⟨true, 2, false⟩
    rfl rfl).1 rfl

/-- C7: with the same successfully sampled level, two consecutive Button
Monitor invocations end in the same state after the second as after the
first and perform identical line writes. -/
theorem button_idempotent (c r : Int) (v : GPIO_Value_Type)
    (s : MotorState) (hc : c = 0) (hr : r = 0) :
    (ButtonTimerEventHandler c r v (ButtonTimerEventHandler c r v s).1).1 =
      (ButtonTimerEventHandler c r v s).1 ∧
    (ButtonTimerEventHandler c r v (ButtonTimerEventHandler c r v s).1).2 =
      (ButtonTimerEventHandler c r v s).2 := by
  subst hc
  subst hr
  cases v <;> simp [ButtonTimerEventHandler]

/-- C7 witness: idempotence at a pressed sample from the initial state. -/
theorem button_idempotent_witness :
    (ButtonTimerEventHandler 0 0 GPIO_Value_Type.low
        (ButtonTimerEventHandler 0 0 GPIO_Value_Type.low initialState).1).1 =
      (ButtonTimerEventHandler 0 0 GPIO_Value_Type.low initialState).1 ∧
    (ButtonTimerEventHandler 0 0 GPIO_Value_Type.low
        (ButtonTimerEventHandler 0 0 GPIO_Value_Type.low initialState).1).2 =
      (ButtonTimerEventHandler 0 0 GPIO_Value_Type.low initialState).2 :=
  button_idempotent 0 0 GPIO_Value_Type.low initialState rfl rfl

/-- C8: every steady-state I/O failure is fatal and atomic — on a failed
timer consumption in either handler, or a failed button read, the
invocation sets only `terminationRequired` and performs no line write. -/
theorem io_failure_fatal_atomic :
    (∀ (c r : Int) (v : GPIO_Value_Type) (s : MotorState), c ≠ 0 →
        ButtonTimerEventHandler c r v s =
          ({ s with terminationRequired := true }, [])) ∧
    (∀ (c r : Int) (v : GPIO_Value_Type) (s : MotorState), c = 0 → r ≠ 0 →
        ButtonTimerEventHandler c r v s =
          ({ s with terminationRequired := true }, [])) ∧
    (∀ (c : Int) (s : MotorState), c ≠ 0 →
        StepperMotorEventHandler c s =
          ({ s with terminationRequired := true }, [])) := by
  refine ⟨?_, ?_, ?_⟩ <;> intros <;>
    simp_all [ButtonTimerEventHandler, StepperMotorEventHandler]

/-- C8 witness: a failed button read (read result -1) at a turning
state. -/
theorem io_failure_fatal_atomic_witness :
    ButtonTimerEventHandler 0 (-1) GPIO_Value_Type.low ⟨true, 2, false⟩ =
      (⟨true, 2, true⟩, []) :=
  io_failure_fatal_atomic.2.1 0 (-1) GPIO_Value_Type.low ⟨true, 2, false⟩
    rfl (by decide)

-- shared helper lemmas about the termination latch and the run loop

theorem button_term_mono (c r : Int) (v : GPIO_Value_Type) (s : MotorState)
    (h : s.terminationRequired = true) :
    (ButtonTimerEventHandler c r v s).1.terminationRequired = true := by
  simp only [ButtonTimerEventHandler]
  split_ifs <;> simp [h]

theorem stepper_term_mono (c : Int) (s : MotorState)
    (h : s.terminationRequired = true) :
    (StepperMotorEventHandler c s).1.terminationRequired = true := by
  simp only [StepperMotorEventHandler]
  split_ifs <;> simp [h]

theorem loopIter_term_mono (e : LoopEvent) (s : MotorState)
    (h : s.terminationRequired = true) :
    (loopIter e s).terminationRequired = true := by
  unfold loopIter
  have h0 : (if e.sigtermDuringWait then TerminationHandler s
      else s).terminationRequired = true := by
    split_ifs <;> simp [TerminationHandler, h]
  cases e.outcome with
  | waitFailed => rfl
  | buttonTick c r v => exact button_term_mono c r v _ h0
  | stepperTick c => exact stepper_term_mono c _ h0

theorem runLoop_of_term (es : List LoopEvent) (s : MotorState)
    (h : s.terminationRequired = true) : runLoop es s = (s, 0) := by
  cases es with
  | nil => rfl
  | cons e es => simp [runLoop, h]

/-- C9: the TerminationLatch is monotone and promptly observed: no loop
iteration (asynchronous SIGTERM, wait failure, or either handler) clears
it once set; a run of the loop from a state with the latch set performs
zero iterations; and if an iteration sets the latch, the loop containing
it performs at most one iteration in total from that point. -/
theorem termination_latch_monotone_prompt :
    (∀ (e : LoopEvent) (s : MotorState), s.terminationRequired = true →
        (loopIter e s).terminationRequired = true) ∧
    (∀ (es : List LoopEvent) (s : MotorState), s.terminationRequired = true →
        (runLoop es s).2 = 0) ∧
    (∀ (e : LoopEvent) (es : List LoopEvent) (s : MotorState),
        (loopIter e s).terminationRequired = true →
        (runLoop (e :: es) s).2 ≤ 1) := by
  refine ⟨loopIter_term_mono, ?_, ?_⟩
  · intro es s h
    rw [runLoop_of_term es s h]
  · intro e es s h
    by_cases hs : s.terminationRequired = true
    · simp [runLoop, hs]
    · simp only [runLoop, if_neg hs]
      rw [runLoop_of_term es _ h]

/-- C9 witness: the prompt-exit conjunct at a trace of two stepper
events after a SIGTERM arrives during the first wait. -/
theorem termination_latch_monotone_prompt_witness :
    (runLoop [⟨true, DispatchOutcome.stepperTick 0⟩,
      ⟨false, DispatchOutcome.stepperTick 0⟩] initialState).2 ≤ 1 :=
  termination_latch_monotone_prompt.2.2 ⟨true, DispatchOutcome.stepperTick 0⟩
    [⟨false, DispatchOutcome.stepperTick 0⟩] initialState (by decide)

/-- C10: frame condition between the handlers — the Step Sequencer never
changes the `turning` flag and never writes the LED line, and the Button
Monitor never writes any of the four driver lines. -/
theorem handler_frame_conditions :
    (∀ (c : Int) (s : MotorState),
        (StepperMotorEventHandler c s).1.isMotorTurning = s.isMotorTurning ∧
        ∀ v : GPIO_Value_Type,
          (Line.greenLED, v) ∉ (StepperMotorEventHandler c s).2) ∧
    (∀ (c r : Int) (v : GPIO_Value_Type) (s : MotorState),
        ∀ l ∈ driveLines, ∀ g : GPIO_Value_Type,
          (l, g) ∉ (ButtonTimerEventHandler c r v s).2) := by
  constructor
  · intro c s
    constructor
    · simp only [StepperMotorEventHandler]
      split_ifs <;> rfl
    · intro v
      simp only [StepperMotorEventHandler]
      split_ifs <;> simp
  · intro c r v s l hl g
    simp only [driveLines, List.mem_cons, List.not_mem_nil, or_false] at hl
    simp only [ButtonTimerEventHandler]
    split_ifs <;> rcases hl with rfl | rfl | rfl | rfl <;> simp

/-- C10 witness: the Button Monitor frame conjunct at line `IN2` on a
pressed sample. -/
theorem handler_frame_conditions_witness :
    (Line.in2, GPIO_Value_Type.low) ∉
      (ButtonTimerEventHandler 0 0 GPIO_Value_Type.low initialState).2 :=
  handler_frame_conditions.2 0 0 GPIO_Value_Type.low initialState
    Line.in2 (by decide) GPIO_Value_Type.low

/-- A concrete initialization outcome in which the button GPIO open call
fails and every other acquisition succeeds. -/
def failButtonOpen : Fd → Int :=
  fun f => if f = Fd.buttonGpio then -1 else 3

/-- C5 counterexample: with the button GPIO open failing,
`InitPeripheralsAndHandlers` returns nonzero, yet the process exit
status is 0, not non-zero as the claim requires. -/
theorem main_exit_zero_on_init_failure :
    (InitPeripheralsAndHandlers failButtonOpen).1 ≠ 0 ∧
    ¬ (mainProgram failButtonOpen (fun _ => 0) []).exitStatus ≠ 0 := by
  decide

/-- C5 amended: the process exits with status 0 on clean shutdown and
also with status 0 on a peripheral-open failure during initialization;
such a failure aborts startup, skips the run loop entirely (zero
iterations) and still proceeds to the best-effort cleanup before
exiting. -/
theorem main_exit_status (fdOf closeResults : Fd → Int)
    (events : List LoopEvent) :
    (mainProgram fdOf closeResults events).exitStatus = 0 ∧
    ((InitPeripheralsAndHandlers fdOf).1 ≠ 0 →
      (mainProgram fdOf closeResults events).loopIterations = 0 ∧
      (mainProgram fdOf closeResults events).closed =
        ClosePeripheralsAndHandlers closeResults) := by
  refine ⟨rfl, fun hfail => ⟨?_, rfl⟩⟩
  have hs : mainInitialState fdOf =
      { initialState with terminationRequired := true } := by
    rw [mainInitialState, if_pos hfail]
  show (runLoop events (mainInitialState fdOf)).2 = 0
  rw [hs, runLoop_of_term _ _ rfl]

/-- C5 witness: the amended theorem at the failing-button-open
initialization with an empty trace, its init-failure hypothesis
discharged concretely. -/
theorem main_exit_status_witness :
    (mainProgram failButtonOpen (fun _ => 0) []).exitStatus = 0 ∧
    (mainProgram failButtonOpen (fun _ => 0) []).loopIterations = 0 :=
  ⟨(main_exit_status failButtonOpen (fun _ => 0) []).1,
   ((main_exit_status failButtonOpen (fun _ => 0) []).2 (by decide)).1⟩

/-- C6 counterexample: the close sequence of
`ClosePeripheralsAndHandlers` is not the reverse of the acquisition
sequence — in particular the epoll multiplexer handle is closed first,
not last. -/
theorem close_order_not_reverse_acquisition :
    ClosePeripheralsAndHandlers (fun _ => 0) ≠ acquireOrder.reverse ∧
    (ClosePeripheralsAndHandlers (fun _ => 0)).head? = some Fd.epoll := by
  decide

/-- C6 amended: on run-loop exit the shutdown routine attempts a close
of every acquired descriptor exactly once, each attempt unconditional
(independent of any close result), but in program order epoll first,
then button timer, green LED, button GPIO, stepper timer, then
IN1..IN4 — not reverse-acquisition order. -/
theorem close_attempts_all_independent (closeResults : Fd → Int) :
    ClosePeripheralsAndHandlers closeResults =
      [Fd.epoll, Fd.buttonTimer, Fd.greenLED, Fd.buttonGpio,
       Fd.stepperTimer, Fd.in1, Fd.in2, Fd.in3, Fd.in4] ∧
    (ClosePeripheralsAndHandlers closeResults).Perm acquireOrder ∧
    (ClosePeripheralsAndHandlers closeResults).Nodup := by
  refine ⟨rfl, ?_, ?_⟩
  · show List.Perm [Fd.epoll, Fd.buttonTimer, Fd.greenLED, Fd.buttonGpio,
      Fd.stepperTimer, Fd.in1, Fd.in2, Fd.in3, Fd.in4] acquireOrder
    decide
  · show List.Nodup [Fd.epoll, Fd.buttonTimer, Fd.greenLED, Fd.buttonGpio,
      Fd.stepperTimer, Fd.in1, Fd.in2, Fd.in3, Fd.in4]
    decide

/-- C6 witness: the amended theorem at the all-successful close
outcome. -/
theorem close_attempts_all_independent_witness :
    ClosePeripheralsAndHandlers (fun _ => 1) =
      [Fd.epoll, Fd.buttonTimer, Fd.greenLED, Fd.buttonGpio,
       Fd.stepperTimer, Fd.in1, Fd.in2, Fd.in3, Fd.in4] :=
  (close_attempts_all_independent (fun _ => 1)).1
